import Mathlib

/-!
Shallow embedding of the ingestion normalization and deduplication pipeline of
the traffic backend server (kotlin_onnx_backend/server.js), together with the
verification of the spec claims about it.

Conventions of the embedding:
* JavaScript strings are Lean `String`s (ASCII payloads, so UTF-16 units and
  characters coincide for everything the code manipulates).
* JavaScript numbers reaching the GPS parsing path are modelled as exact
  rationals (`Rat`); the zero/nonzero and NaN distinctions the code branches on
  are preserved exactly by this choice.
* `Date.now()` and the current wall clock are threaded explicitly as an `Int`
  count of milliseconds since the Unix epoch.
* The generic `new Date(string)` parse of the final fallback branch of
  `formatTimestamp` is implementation defined in JS; it is threaded as an
  explicit oracle `gparse : String -> Option Int` (`none` models an Invalid
  Date).  No theorem below depends on the oracle's behaviour.
-/

namespace TrafficBackend

set_option maxRecDepth 200000

/-! ## Character classes and low level string helpers -/

/-- The ten decimal digit characters (the character class of the regex d). -/
def digitChars : List Char := ['0', '1', '2', '3', '4', '5', '6', '7', '8', '9']

/-- Decimal digit test. -/
def isDigitChar (c : Char) : Bool := digitChars.contains c

/-- Whitespace characters recognized by JS string trimming. -/
def isWSChar (c : Char) : Bool := c == ' ' || c == '\t' || c == '\n' || c == '\r'

/-- Numeric value of a digit character. -/
def digitVal (c : Char) : Nat := c.toNat - 48

/-- Digit character of the last decimal digit of a number. -/
def digitOf (n : Nat) : Char := digitChars.getD (n % 10) '0'

/-- Split a character list into its maximal leading run of decimal digits
and the rest. -/
def takeDigits : List Char → List Char × List Char
  | [] => ([], [])
  | c :: r =>
    if isDigitChar c then (c :: (takeDigits r).1, (takeDigits r).2)
    else ([], c :: r)

/-- Value of a digit string read in base 10. -/
def digitsToNat (l : List Char) : Nat := l.foldl (fun a c => a * 10 + digitVal c) 0

/-- Trim JS whitespace from both ends. -/
def trimWS (l : List Char) : List Char :=
  ((l.dropWhile isWSChar).reverse.dropWhile isWSChar).reverse

/-- Strip one optional leading sign; returns (isNegative, rest). -/
def splitSign : List Char → Bool × List Char
  | [] => (false, [])
  | c :: r =>
    if c = '-' then (true, r)
    else if c = '+' then (false, r)
    else (false, c :: r)

/-- Substring test, the semantics of JS String.prototype.includes. -/
def containsSub (needle : List Char) : List Char → Bool
  | [] => needle.isPrefixOf ([] : List Char)
  | c :: t => needle.isPrefixOf (c :: t) || containsSub needle t

/-- First 13 characters of a string (substring(0, 13) on ASCII data). -/
def strTake (s : String) (n : Nat) : String := String.mk (s.data.take n)

/-! ## Proleptic Gregorian calendar (the UTC field computation behind
JS Date#toISOString).  Days are counted from the Unix epoch. -/

/-- Days before year-of-era y (0 ≤ y ≤ 400) inside a 400 year Gregorian era
that starts on a March 1st. -/
def cumDaysOfEra (y : Nat) : Nat := 365 * y + y / 4 - y / 100

/-- Largest year-of-era y ≤ n whose first day is ≤ doe. -/
def yoeAux : Nat → Nat → Nat
  | 0, _ => 0
  | y + 1, doe => if cumDaysOfEra (y + 1) ≤ doe then y + 1 else yoeAux y doe

/-- Year-of-era of a day-of-era (0 ≤ doe < 146097). -/
def yoeOf (doe : Nat) : Nat := yoeAux 399 doe

/-- Era (400 year Gregorian cycle) of a day count since 1970-01-01, after
shifting the origin to 0000-03-01. -/
def eraOf (z0 : Int) : Int := (z0 + 719468).fdiv 146097

/-- Day-of-era (0 ≤ doe < 146097). -/
def doeOf (z0 : Int) : Nat := ((z0 + 719468).emod 146097).toNat

/-- Day-of-year inside the March-based year (0 ≤ doy ≤ 365). -/
def doyOf (z0 : Int) : Nat := doeOf z0 - cumDaysOfEra (yoeOf (doeOf z0))

/-- March-based month index (0 = March). -/
def mpOf (z0 : Int) : Nat := (5 * doyOf z0 + 2) / 153

/-- Day of month (1..31). -/
def dayOf (z0 : Int) : Nat := doyOf z0 - (153 * mpOf z0 + 2) / 5 + 1

/-- Civil month (1..12). -/
def monthOf (z0 : Int) : Nat := if mpOf z0 < 10 then mpOf z0 + 3 else mpOf z0 - 9

/-- Civil date (year, month, day) of a day count since 1970-01-01, proleptic
Gregorian, astronomical year numbering. -/
def civilFromDays (z0 : Int) : Int × Nat × Nat :=
  (eraOf z0 * 400 + (yoeOf (doeOf z0) : Int) + (if monthOf z0 ≤ 2 then 1 else 0),
   monthOf z0, dayOf z0)

/-- Days since the epoch of an instant. -/
def daysOf (ms : Int) : Int := (ms.fdiv 1000).fdiv 86400

/-- Year of the instant ms (milliseconds since epoch), as rendered by
toISOString. -/
def yearOf (ms : Int) : Int := (civilFromDays (daysOf ms)).1

/-- Two digit zero-padded decimal rendering (for n < 100). -/
def pad2Chars (n : Nat) : List Char := [digitOf (n / 10), digitOf n]

/-- Four digit zero-padded decimal rendering (for n < 10000). -/
def pad4Chars (n : Nat) : List Char :=
  [digitOf (n / 1000), digitOf (n / 100), digitOf (n / 10), digitOf n]

/-- Six digit zero-padded decimal rendering (for the expanded year form). -/
def pad6Chars (n : Nat) : List Char :=
  [digitOf (n / 100000), digitOf (n / 10000), digitOf (n / 1000),
   digitOf (n / 100), digitOf (n / 10), digitOf n]

/-- Rendering of date and time fields in the canonical shape
YYYY-MM-DD HH:MM:SS. -/
def renderCanonical (y mo d hh mi ss : Nat) : List Char :=
  pad4Chars y ++ '-' :: pad2Chars mo ++ '-' :: pad2Chars d ++
  ' ' :: pad2Chars hh ++ ':' :: pad2Chars mi ++ ':' :: pad2Chars ss

/-- Seconds-of-day of an instant. -/
def sodOf (ms : Int) : Nat := ((ms.fdiv 1000).emod 86400).toNat

/-- Canonical formatting YYYY-MM-DD HH:MM:SS of an instant, truncated to whole
seconds: the value of new Date(ms).toISOString().slice(0,19).replace of the
separator, for instants whose year needs at most four digits. -/
def canonicalOfMillis (ms : Int) : String :=
  String.mk (renderCanonical (civilFromDays (daysOf ms)).1.toNat
    (civilFromDays (daysOf ms)).2.1 (civilFromDays (daysOf ms)).2.2
    (sodOf ms / 3600) (sodOf ms % 3600 / 60) (sodOf ms % 60))

/-- The 19 character slice of the expanded-year ISO form (sign and six year
digits), which ends after the minutes, with the separator replaced. -/
def expandedSlice (ms : Int) : String :=
  String.mk ((if (civilFromDays (daysOf ms)).1 < 0 then '-' else '+') ::
    pad6Chars (civilFromDays (daysOf ms)).1.natAbs ++
    '-' :: pad2Chars (civilFromDays (daysOf ms)).2.1 ++
    '-' :: pad2Chars (civilFromDays (daysOf ms)).2.2 ++
    ' ' :: pad2Chars (sodOf ms / 3600) ++ ':' :: pad2Chars (sodOf ms % 3600 / 60))

/-- The value of new Date(ms).toISOString().slice(0, 19).replace of the first
separator by a space.  Years outside 0..9999 use the expanded ±YYYYYY ISO year
form, whose 19 character slice ends after the minutes. -/
def toISOStringSlice (ms : Int) : String :=
  if 0 ≤ yearOf ms ∧ yearOf ms ≤ 9999 then canonicalOfMillis ms
  else expandedSlice ms

/-- The value of new Date(ms).toISOString(): full ISO form with milliseconds
and Z suffix (expanded year form outside 0..9999). -/
def toISOFull (ms : Int) : String :=
  let ymd := civilFromDays ((ms.fdiv 1000).fdiv 86400)
  let sod := sodOf ms
  let msFrac := (ms.emod 1000).toNat
  let ypart :=
    if 0 ≤ ymd.1 ∧ ymd.1 ≤ 9999 then pad4Chars ymd.1.toNat
    else (if ymd.1 < 0 then '-' else '+') :: pad6Chars ymd.1.natAbs
  String.mk (ypart ++ '-' :: pad2Chars ymd.2.1 ++ '-' :: pad2Chars ymd.2.2 ++
    'T' :: pad2Chars (sod / 3600) ++ ':' :: pad2Chars (sod % 3600 / 60) ++
    ':' :: pad2Chars (sod % 60) ++
    '.' :: [digitOf (msFrac / 100), digitOf (msFrac / 10), digitOf msFrac] ++ ['Z'])

/-! ## The canonical timestamp pattern -/

/-- Exact match of the regex for the canonical pattern
YYYY-MM-DD HH:MM:SS on a character list (anchored, 19 characters). -/
def matchesCanonicalList : List Char → Bool
  | [y1, y2, y3, y4, s1, o1, o2, s2, d1, d2, s3, h1, h2, s4, i1, i2, s5, x1, x2] =>
    isDigitChar y1 && isDigitChar y2 && isDigitChar y3 && isDigitChar y4 &&
    decide (s1 = '-') && isDigitChar o1 && isDigitChar o2 && decide (s2 = '-') &&
    isDigitChar d1 && isDigitChar d2 && decide (s3 = ' ') &&
    isDigitChar h1 && isDigitChar h2 && decide (s4 = ':') &&
    isDigitChar i1 && isDigitChar i2 && decide (s5 = ':') &&
    isDigitChar x1 && isDigitChar x2
  | _ => false

/-- Exact match of the canonical pattern YYYY-MM-DD HH:MM:SS. -/
def matchesCanonical (s : String) : Bool := matchesCanonicalList s.data

/-- The canonical pattern together with calendar and clock field bounds: the
string denotes a real point in time. -/
def canonicalParseableList : List Char → Bool
  | [y1, y2, y3, y4, s1, o1, o2, s2, d1, d2, s3, h1, h2, s4, i1, i2, s5, x1, x2] =>
    matchesCanonicalList
      [y1, y2, y3, y4, s1, o1, o2, s2, d1, d2, s3, h1, h2, s4, i1, i2, s5, x1, x2] &&
    decide (1 ≤ 10 * digitVal o1 + digitVal o2 ∧ 10 * digitVal o1 + digitVal o2 ≤ 12 ∧
      1 ≤ 10 * digitVal d1 + digitVal d2 ∧ 10 * digitVal d1 + digitVal d2 ≤ 31 ∧
      10 * digitVal h1 + digitVal h2 ≤ 23 ∧ 10 * digitVal i1 + digitVal i2 ≤ 59 ∧
      10 * digitVal x1 + digitVal x2 ≤ 59)
  | _ => false

/-- The string matches the canonical pattern and is parseable back into a
valid point in time. -/
def canonicalParseable (s : String) : Bool := canonicalParseableList s.data

/-! ## JS number coercions: Number(s), parseInt(s), parseFloat(s) -/

/-- The characters of the literal Infinity. -/
def infChars : List Char := ['I', 'n', 'f', 'i', 'n', 'i', 't', 'y']

/-- Hexadecimal digit test. -/
def isHexDigit (c : Char) : Bool :=
  isDigitChar c || ['a', 'b', 'c', 'd', 'e', 'f', 'A', 'B', 'C', 'D', 'E', 'F'].contains c

/-- Octal digit test. -/
def isOctDigit (c : Char) : Bool := ['0', '1', '2', '3', '4', '5', '6', '7'].contains c

/-- Binary digit test. -/
def isBinDigit (c : Char) : Bool := c == '0' || c == '1'

/-- Exponent tail of a numeric literal: optional sign then at least one digit,
consuming the whole rest. -/
def expTail (r : List Char) : Bool :=
  let p := takeDigits (splitSign r).2
  !p.1.isEmpty && p.2.isEmpty

/-- Optional exponent part closing a fully consumed decimal literal. -/
def expPart : List Char → Bool
  | [] => true
  | c :: r => if c = 'e' ∨ c = 'E' then expTail r else false

/-- Full-string decimal literal: digits [. digits] [exponent] or
. digits [exponent]. -/
def decimalLit (l : List Char) : Bool :=
  let p := takeDigits l
  match p.2 with
  | [] => !p.1.isEmpty
  | c :: r2 =>
    if c = '.' then
      let q := takeDigits r2
      (!p.1.isEmpty || !q.1.isEmpty) && expPart q.2
    else !p.1.isEmpty && expPart (c :: r2)

/-- Signed decimal literal or the Infinity literal, fully consumed. -/
def decOrInf (l : List Char) : Bool :=
  let l2 := (splitSign l).2
  if l2 = infChars then true else decimalLit l2

/-- Does the trimmed, nonempty string body convert to a non-NaN number under
the Number() coercion?  Handles the 0x / 0o / 0b integer forms (which admit no
sign) and otherwise an optionally signed decimal or Infinity literal. -/
def numericBody (l : List Char) : Bool :=
  match l with
  | c0 :: c1 :: rest =>
    if c0 = '0' ∧ (c1 = 'x' ∨ c1 = 'X') then !rest.isEmpty && rest.all isHexDigit
    else if c0 = '0' ∧ (c1 = 'o' ∨ c1 = 'O') then !rest.isEmpty && rest.all isOctDigit
    else if c0 = '0' ∧ (c1 = 'b' ∨ c1 = 'B') then !rest.isEmpty && rest.all isBinDigit
    else decOrInf (c0 :: c1 :: rest)
  | _ => decOrInf l

/-- Whether !isNaN(s) holds for a string s: Number(s) is not NaN.  The empty
and all-whitespace strings coerce to 0, hence count as numeric. -/
def isNumericStr (s : String) : Bool :=
  let l := trimWS s.data
  if l.isEmpty then true else numericBody l

/-- Value of a hex digit character. -/
def hexVal (c : Char) : Nat :=
  if isDigitChar c then digitVal c
  else if ['a', 'b', 'c', 'd', 'e', 'f'].contains c then c.toNat - 87
  else c.toNat - 55

/-- Value of a hex digit string. -/
def hexToNat (l : List Char) : Nat := l.foldl (fun a c => a * 16 + hexVal c) 0

/-- Body of parseInt after whitespace and sign handling: a 0x hex integer or
a maximal leading run of decimal digits; none models NaN. -/
def jsParseIntChars (l2 : List Char) (neg : Bool) : Option Int :=
  match l2 with
  | c0 :: c1 :: rest =>
    if c0 = '0' ∧ (c1 = 'x' ∨ c1 = 'X') then
      let ds := rest.takeWhile isHexDigit
      if ds.isEmpty then none
      else some ((if neg then -1 else 1) * (hexToNat ds : Int))
    else
      let p := takeDigits (c0 :: c1 :: rest)
      if p.1.isEmpty then none
      else some ((if neg then -1 else 1) * (digitsToNat p.1 : Int))
  | _ =>
    let p := takeDigits l2
    if p.1.isEmpty then none
    else some ((if neg then -1 else 1) * (digitsToNat p.1 : Int))

/-- JS parseInt(s) (radix defaulted): skip whitespace, optional sign, then a
0x hex integer or a maximal leading run of decimal digits; none models NaN.
Trailing garbage is ignored. -/
def jsParseInt (s : String) : Option Int :=
  let sg := splitSign (s.data.dropWhile isWSChar)
  jsParseIntChars sg.2 sg.1

/-- A JS number as far as the GPS path distinguishes them: an exact finite
value or an infinity.  (parseFloat results of finite decimal literals are
modelled exactly as rationals; the float rounding of the real runtime cannot
change zero-ness or sign, which is all the code branches on.) -/
inductive JsFloat
  | fin (q : ℚ)
  | infF (pos : Bool)
deriving DecidableEq

/-- Leading exponent of the remainder of a parseFloat literal; 0 when no
well-formed exponent follows (parseFloat then stops before it). -/
def expLead (l : List Char) : Int :=
  match l with
  | [] => 0
  | c :: r =>
    if c = 'e' ∨ c = 'E' then
      let sg := splitSign r
      let p := takeDigits sg.2
      if p.1.isEmpty then 0
      else (if sg.1 then -1 else 1) * (digitsToNat p.1 : Int)
    else 0

/-- JS parseFloat on a character list: skip leading whitespace, optional sign,
then the Infinity literal or a maximal leading decimal literal with optional
fraction and exponent; none models NaN.  Trailing garbage is ignored. -/
def parseFloatChars (l0 : List Char) : Option JsFloat :=
  let l := l0.dropWhile isWSChar
  let sg := splitSign l
  let l2 := sg.2
  if infChars.isPrefixOf l2 then some (JsFloat.infF (!sg.1))
  else
    let p := takeDigits l2
    let fr : List Char × List Char :=
      match p.2 with
      | [] => ([], [])
      | c :: r2 => if c = '.' then takeDigits r2 else ([], c :: r2)
    if p.1.isEmpty ∧ fr.1.isEmpty then none
    else
      let mant : ℚ := (digitsToNat p.1 : ℚ) +
        (digitsToNat fr.1 : ℚ) / ((10 : ℚ) ^ fr.1.length)
      some (JsFloat.fin ((if sg.1 then -1 else 1) * mant * (10 : ℚ) ^ (expLead fr.2)))

/-- A raw JSON field value as seen by the GPS coordinate extraction. -/
inductive JVal
  | undef
  | null
  | str (s : String)
  | num (q : ℚ)
deriving DecidableEq

/-- JS parseFloat applied to a raw field value (non-strings are coerced to
their string images first: undefined and null give NaN, a number re-parses to
itself). -/
def jsParseFloat : JVal → Option JsFloat
  | .undef => none
  | .null => none
  | .num q => some (.fin q)
  | .str s => parseFloatChars s.data

/-- Truthiness of a JS number: zero is falsy, every other number (including
infinities) is truthy. -/
def jsfTruthy : JsFloat → Bool
  | .fin q => decide (q ≠ 0)
  | .infF _ => true

/-- Embeds parseFloat(x) || null, the GPS coordinate extraction of the
/tracking and /bus-image handlers: none models the explicit null. -/
def gpsCoordOrNull (v : JVal) : Option JsFloat :=
  match jsParseFloat v with
  | some f => if jsfTruthy f then some f else none
  | none => none

/-! ## formatTimestamp (server.js line 102) -/

/-- A raw timestamp value as the handler receives it: absent (null or
undefined), a Date object (none models an Invalid Date, whose getTime is NaN),
an integral JSON number, or a string. -/
inductive TsInput
  | absent
  | dateObj (t : Option Int)
  | num (n : Int)
  | str (s : String)
deriving DecidableEq

/-- JS truthiness of a raw timestamp value. -/
def tsTruthy : TsInput → Bool
  | .absent => false
  | .dateObj _ => true
  | .num n => decide (n ≠ 0)
  | .str s => !s.data.isEmpty

/-- First-truthy-wins fallback (the JS || operator) on raw timestamps. -/
def tsOr (a b : TsInput) : TsInput := if tsTruthy a then a else b

/-- Replace the first T by a space (JS replace with a string pattern). -/
def replaceFirstT : List Char → List Char
  | [] => []
  | c :: r => if c = 'T' then ' ' :: r else c :: replaceFirstT r

/-- Milliseconds magnitude bound of a valid JS Date. -/
def dateValid (ms : Int) : Prop := ms.natAbs ≤ 8640000000000000

instance (ms : Int) : Decidable (dateValid ms) := by unfold dateValid; infer_instance

/-- Embedding of formatTimestamp (server.js lines 102-139).  gparse is the
implementation-defined generic new Date(string) parse of the final branch;
now is the current clock used by the fallbacks.  Branch order follows the
source: falsy check, Date object, !isNaN numeric, string containing T,
canonical regex, generic parse; an invalid parsed date falls back to the
current time through the catch. -/
def formatTimestamp (gparse : String → Option Int) (now : Int) : TsInput → String
  | .absent => toISOStringSlice now
  | .dateObj none => toISOStringSlice now
  | .dateObj (some t) => toISOStringSlice t
  | .num n =>
    if n = 0 then toISOStringSlice now
    else if dateValid n then toISOStringSlice n
    else toISOStringSlice now
  | .str s =>
    if s.data.isEmpty then toISOStringSlice now
    else if isNumericStr s then
      match jsParseInt s with
      | some v => if dateValid v then toISOStringSlice v else toISOStringSlice now
      | none => toISOStringSlice now
    else if s.data.contains 'T' then String.mk (replaceFirstT (s.data.take 19))
    else if matchesCanonical s then s
    else
      match gparse s with
      | some v => toISOStringSlice v
      | none => toISOStringSlice now

/-! ## formatLocation (server.js line 142) -/

/-- A raw position coordinate as received in the JSON body: absent, an
explicit null, or an integral pixel coordinate.  (The clients send integral
pixel positions; the formatter itself only tests against undefined and null
and otherwise interpolates the value into a string.) -/
inductive JNum
  | undef
  | null
  | val (n : Int)
deriving DecidableEq

/-- JS truthiness of a raw coordinate: 0, null and undefined are falsy. -/
def jnumTruthy : JNum → Bool
  | .val n => decide (n ≠ 0)
  | _ => false

/-- The JS || operator on raw coordinates. -/
def jnumOr (a b : JNum) : JNum := if jnumTruthy a then a else b

/-- The check posX !== undefined && posX !== null of formatLocation. -/
def jnumPresent : JNum → Bool
  | .val _ => true
  | _ => false

/-- Fuel-driven digit expansion of a natural number. -/
def natCharsAux : Nat → Nat → List Char
  | 0, _ => []
  | fuel + 1, m => if m < 10 then [digitOf m] else natCharsAux fuel (m / 10) ++ [digitOf m]

/-- Decimal rendering of a natural number (digit characters only). -/
def natChars (n : Nat) : List Char := natCharsAux (n + 1) n

/-- JS template interpolation of an integral number. -/
def intChars (n : Int) : List Char :=
  if n < 0 then '-' :: natChars n.natAbs else natChars n.natAbs

/-- JS template interpolation of a raw coordinate value. -/
def jnumChars : JNum → List Char
  | .undef => "undefined".data
  | .null => "null".data
  | .val n => intChars n

/-- JS truthiness of an optional string (absent, null and the empty string
are falsy). -/
def strTruthy : Option String → Bool
  | some s => !s.data.isEmpty
  | none => false

/-- Embedding of formatLocation (server.js lines 142-152). -/
def formatLocation (location : Option String) (posX posY : JNum) : String :=
  if strTruthy location && !decide (location.getD "" = "null,null") &&
      !containsSub "undefined".data (location.getD "").data then
    location.getD ""
  else if jnumPresent posX && jnumPresent posY then
    String.mk (jnumChars posX ++ ',' :: jnumChars posY)
  else "0,0"

/-- Modelled from the spec: the Location Formatter contract of spec section
4.2, written from the spec's words for comparison with formatLocation.  If raw
is present (truthy), not the literal sentinel null,null, and does not contain
the substring undefined, return raw verbatim; else if both x and y are present
(not null or absent) return the pair rendering; else return 0,0. -/
def normalizeLocationSpec (raw : Option String) (x y : JNum) : String :=
  match raw with
  | some s =>
    if s ≠ "" ∧ s ≠ "null,null" ∧ containsSub "undefined".data s.data = false then s
    else if jnumPresent x = true ∧ jnumPresent y = true then
      String.mk (jnumChars x ++ ',' :: jnumChars y)
    else "0,0"
  | none =>
    if jnumPresent x = true ∧ jnumPresent y = true then
      String.mk (jnumChars x ++ ',' :: jnumChars y)
    else "0,0"

/-! ## The duplicate suppressor (server.js lines 76-99) -/

/-- The in-memory table recentObjects: an insertion-ordered map from
fingerprint to last-seen clock, modelled as an association list with the JS
Map update-in-place semantics. -/
abbrev DedupTable := List (String × Int)

/-- Map.get. -/
def mapGet : DedupTable → String → Option Int
  | [], _ => none
  | e :: r, k => if e.1 = k then some e.2 else mapGet r k

/-- Map.set: update in place when the key exists (JS Maps keep the original
insertion position), append otherwise. -/
def mapSet : DedupTable → String → Int → DedupTable
  | [], k, v => [(k, v)]
  | e :: r, k, v => if e.1 = k then (k, v) :: r else e :: mapSet r k v

/-- The cleanup sweep: delete every entry strictly older than 30000 ms. -/
def sweep (now : Int) (m : DedupTable) : DedupTable :=
  m.filter (fun e => !decide (now - e.2 > 30000))

/-- Record a fingerprint and run the passive cleanup when the table has grown
past 100 entries. -/
def recordAndClean (now : Int) (key : String) (m : DedupTable) : DedupTable :=
  if 100 < (mapSet m key now).length then sweep now (mapSet m key now)
  else mapSet m key now

/-- Embedding of isRecentlyProcessed (server.js lines 79-99): returns the
reported duplicate flag and the table after the call. -/
def isRecentlyProcessed (now : Int) (key : String) (m : DedupTable) : Bool × DedupTable :=
  match mapGet m key with
  | some lastTime =>
    if now - lastTime < 10000 then (true, m)
    else (false, recordAndClean now key m)
  | none => (false, recordAndClean now key m)

/-! ## Category classification and the ingestion handlers -/

/-- The destination logical collection. -/
inductive Category
  | bus
  | vehicle
  | other
deriving DecidableEq

/-- ASCII lowercase of a character (the effect of JS toLowerCase on the
ASCII payloads the handlers compare). -/
def charToLower (c : Char) : Char :=
  if 65 ≤ c.toNat ∧ c.toNat ≤ 90 then Char.ofNat (c.toNat + 32) else c

/-- ASCII lowercase of a string. -/
def strToLower (s : String) : String := String.mk (s.data.map charToLower)

/-- Collection choice by object type (the Model selection of the handlers). -/
def classify (objectType : String) : Category :=
  if strToLower objectType = "bus" then .bus
  else if ["car", "truck", "motorcycle", "cup"].contains (strToLower objectType) then .vehicle
  else .other

/-- JS || on optional strings with a string default. -/
def strOr (a b : Option String) : Option String := if strTruthy a then a else b

/-- Close an || fallback chain with a string literal default. -/
def strOrD (a : Option String) (d : String) : String :=
  if strTruthy a then a.getD "" else d

/-! ## The /logs handler (server.js line 155) -/

/-- The JSON body of a /logs request, restricted to the fields the handler
reads.  Absent and null JSON fields are both falsy for the || chains and are
modelled as none / the dedicated absent constructors. -/
structure LogsBody where
  sessionId : Option String
  session_id : Option String
  device_id : Option String
  vehicle_id : Option String
  timestamp : TsInput
  event_time : TsInput
  location : Option String
  position_x : JNum
  position_y : JNum
  exit_position_x : JNum
  exit_position_y : JNum
  objectType : Option String
  object_type : Option String
  vehicle_type : Option String
  direction : Option String
deriving DecidableEq

/-- The canonical record the /logs handler persists (the fields passed to the
model constructor). -/
structure LogRecord where
  sessionId : String
  timestamp : String
  location : String
  objectType : String
  direction : String
deriving DecidableEq

/-- Response classes of the /logs handler. -/
inductive LogsResp
  | busSkipped
  | dupSkipped
  | stored (c : Category)
deriving DecidableEq

/-- Outcome of one /logs request: the response, the dedup table afterwards
and the persisted record, if any. -/
structure LogsResult where
  resp : LogsResp
  table : DedupTable
  saved : Option LogRecord
deriving DecidableEq

/-- Extracted sessionId of a /logs body. -/
def logsSessionId (b : LogsBody) : String :=
  strOrD (strOr b.sessionId b.session_id) "unknown"

/-- Extracted deviceId of a /logs body. -/
def logsDeviceId (b : LogsBody) : String :=
  strOrD (strOr b.device_id b.vehicle_id) "unknown"

/-- Extracted objectType of a /logs body. -/
def logsObjectType (b : LogsBody) : String :=
  strOrD (strOr b.objectType (strOr b.object_type b.vehicle_type)) "unknown"

/-- Normalized timestamp of a /logs body. -/
def logsTimestamp (g : String → Option Int) (now : Int) (b : LogsBody) : String :=
  formatTimestamp g now (tsOr b.timestamp (tsOr b.event_time (TsInput.str (toISOFull now))))

/-- Normalized location of a /logs body. -/
def logsLocation (b : LogsBody) : String :=
  formatLocation b.location (jnumOr b.position_x b.exit_position_x)
    (jnumOr b.position_y b.exit_position_y)

/-- The duplicate-detection fingerprint of a /logs body
(sessionId-objectType-deviceId-timestamp.substring(0,13)). -/
def logsKey (g : String → Option Int) (now : Int) (b : LogsBody) : String :=
  logsSessionId b ++ "-" ++ logsObjectType b ++ "-" ++ logsDeviceId b ++ "-" ++
    strTake (logsTimestamp g now b) 13

/-- Embedding of the /logs handler (server.js lines 155-219): normalize the
fields, divert bus logs, suppress duplicates, persist otherwise. -/
def logsHandler (g : String → Option Int) (now : Int) (b : LogsBody)
    (m : DedupTable) : LogsResult :=
  let objectType := logsObjectType b
  if strToLower objectType = "bus" then ⟨.busSkipped, m, none⟩
  else
    let p := isRecentlyProcessed now (logsKey g now b) m
    if p.1 then ⟨.dupSkipped, p.2, none⟩
    else
      ⟨.stored (classify objectType), p.2,
        some ⟨logsSessionId b, logsTimestamp g now b, logsLocation b,
          objectType, strOrD b.direction "unknown"⟩⟩

/-! ## The /tracking handler (server.js line 222) -/

/-- The JSON body of a /tracking request, restricted to the fields the
handler reads. -/
structure TrackingBody where
  session_id : Option String
  device_id : Option String
  vehicle_id : Option String
  timestamp : TsInput
  location : Option String
  position_x : JNum
  position_y : JNum
  exit_position_x : JNum
  exit_position_y : JNum
  object_type : Option String
  vehicle_type : Option String
  direction : Option String
  gps_location : Option String
  gps_latitude : JVal
  gps_longitude : JVal
  user_id : Option String
  is_public : Option Bool
deriving DecidableEq

/-- The record the /tracking handler persists. -/
structure TrackRecord where
  sessionId : String
  timestamp : String
  location : String
  objectType : String
  direction : String
  gpsLocation : String
  gpsLatitude : Option JsFloat
  gpsLongitude : Option JsFloat
  userId : String
  isPublic : Bool
deriving DecidableEq

/-- Response classes of the /tracking handler. -/
inductive TrackingResp
  | gpsSkipped
  | dupSkipped
  | stored (c : Category)
deriving DecidableEq

/-- Outcome of one /tracking request. -/
structure TrackingResult where
  resp : TrackingResp
  table : DedupTable
  saved : Option TrackRecord
deriving DecidableEq

/-- Extracted sessionId of a /tracking body. -/
def trackingSessionId (b : TrackingBody) : String := strOrD b.session_id "unknown"

/-- Extracted deviceId of a /tracking body. -/
def trackingDeviceId (b : TrackingBody) : String :=
  strOrD (strOr b.device_id b.vehicle_id) "unknown"

/-- Extracted objectType of a /tracking body. -/
def trackingObjectType (b : TrackingBody) : String :=
  strOrD (strOr b.object_type b.vehicle_type) "unknown"

/-- Normalized timestamp of a /tracking body. -/
def trackingTimestamp (g : String → Option Int) (now : Int) (b : TrackingBody) : String :=
  formatTimestamp g now (tsOr b.timestamp (TsInput.str (toISOFull now)))

/-- Normalized location of a /tracking body. -/
def trackingLocation (b : TrackingBody) : String :=
  formatLocation b.location (jnumOr b.position_x b.exit_position_x)
    (jnumOr b.position_y b.exit_position_y)

/-- The duplicate-detection fingerprint of a /tracking body. -/
def trackingKey (g : String → Option Int) (now : Int) (b : TrackingBody) : String :=
  trackingSessionId b ++ "-" ++ trackingObjectType b ++ "-" ++ trackingDeviceId b ++ "-" ++
    strTake (trackingTimestamp g now b) 13

/-- The guard of the /tracking and /bus-image handlers: skip when GPS data or
user id is missing (falsy), the GPS location is the unknown sentinel, or a
parsed coordinate is falsy. -/
def gpsGuardSkips (gpsLocation : String) (gpsLatitude gpsLongitude : Option JsFloat)
    (userId : String) : Bool :=
  decide (gpsLocation = "") || decide (gpsLocation = "unknown,unknown") ||
  !(gpsLatitude.map jsfTruthy).getD false || !(gpsLongitude.map jsfTruthy).getD false ||
  decide (userId = "")

/-- The /tracking guard applied to the extracted fields of a body. -/
def trackingGuard (b : TrackingBody) : Bool :=
  gpsGuardSkips (strOrD b.gps_location "") (gpsCoordOrNull b.gps_latitude)
    (gpsCoordOrNull b.gps_longitude) (strOrD b.user_id "")

/-- Embedding of the /tracking handler (server.js lines 222-315). -/
def trackingHandler (g : String → Option Int) (now : Int) (b : TrackingBody)
    (m : DedupTable) : TrackingResult :=
  if trackingGuard b then ⟨.gpsSkipped, m, none⟩
  else
    let p := isRecentlyProcessed now (trackingKey g now b) m
    if p.1 then ⟨.dupSkipped, p.2, none⟩
    else
      ⟨.stored (classify (trackingObjectType b)), p.2,
        some ⟨trackingSessionId b, trackingTimestamp g now b, trackingLocation b,
          trackingObjectType b, strOrD b.direction "unknown", strOrD b.gps_location "",
          gpsCoordOrNull b.gps_latitude, gpsCoordOrNull b.gps_longitude,
          strOrD b.user_id "", b.is_public = some true⟩⟩

/-! ## The /bus-image handler (server.js line 373) -/

/-- The JSON body of a /bus-image request, restricted to the fields the
handler reads. -/
structure BusImageBody where
  session_id : Option String
  device_id : Option String
  timestamp : TsInput
  image_data : Option String
  location : Option String
  position_x : JNum
  position_y : JNum
  exit_position_x : JNum
  exit_position_y : JNum
  gps_location : Option String
  gps_latitude : JVal
  gps_longitude : JVal
  user_id : Option String
  is_public : Option Bool
  event_type : Option String
deriving DecidableEq

/-- The record persisted into the bus_images collection (the fields passed to
the BusImage constructor). -/
structure BusImageRecord where
  sessionId : String
  timestamp : String
  imageData : String
  location : String
  objectType : String
  deviceId : String
  eventType : String
  gpsLocation : String
  gpsLatitude : Option JsFloat
  gpsLongitude : Option JsFloat
  userId : String
  isPublic : Bool
deriving DecidableEq

/-- The synthesized companion tracking record persisted into the Bus
collection by /bus-image (server.js lines 468-480; it carries no location). -/
structure BusTrackRecord where
  sessionId : String
  timestamp : String
  objectType : String
  direction : String
  gpsLocation : String
  gpsLatitude : Option JsFloat
  gpsLongitude : Option JsFloat
  userId : String
  isPublic : Bool
deriving DecidableEq

/-- Response classes of the /bus-image handler. -/
inductive BusImageResp
  | gpsSkipped
  | noImage
  | alreadyExists
  | storedImage
deriving DecidableEq

/-- Outcome of one /bus-image request: response, table afterwards, persisted
image record and persisted synthesized tracking record, if any. -/
structure BusImageResult where
  resp : BusImageResp
  table : DedupTable
  savedImage : Option BusImageRecord
  savedTracking : Option BusTrackRecord
deriving DecidableEq

/-- Extracted sessionId of a /bus-image body. -/
def busImageSessionId (b : BusImageBody) : String := strOrD b.session_id "unknown"

/-- Extracted deviceId of a /bus-image body. -/
def busImageDeviceId (b : BusImageBody) : String := strOrD b.device_id "unknown"

/-- Normalized timestamp of a /bus-image body. -/
def busImageTimestamp (g : String → Option Int) (now : Int) (b : BusImageBody) : String :=
  formatTimestamp g now (tsOr b.timestamp (TsInput.str (toISOFull now)))

/-- The busimg fingerprint computed by the handler (server.js line 408). -/
def busImageKey (g : String → Option Int) (now : Int) (b : BusImageBody) : String :=
  "busimg-" ++ busImageSessionId b ++ "-" ++ busImageDeviceId b ++ "-" ++
    strTake (busImageTimestamp g now b) 13

/-- The fingerprint of the synthesized bus tracking entry (server.js
line 463). -/
def busTrackingKey (g : String → Option Int) (now : Int) (b : BusImageBody) : String :=
  busImageSessionId b ++ "-bus-" ++ busImageDeviceId b ++ "-" ++
    strTake (busImageTimestamp g now b) 13

/-- The exact-match duplicate lookup BusImage.findOne on
(sessionId, deviceId, timestamp). -/
def busImageExists (db : List BusImageRecord) (sid did ts : String) : Bool :=
  db.any (fun r => decide (r.sessionId = sid) && decide (r.deviceId = did) &&
    decide (r.timestamp = ts))

/-- The /bus-image guard applied to the extracted fields of a body. -/
def busImageGuard (b : BusImageBody) : Bool :=
  gpsGuardSkips (strOrD b.gps_location "") (gpsCoordOrNull b.gps_latitude)
    (gpsCoordOrNull b.gps_longitude) (strOrD b.user_id "")

/-- The image record the handler persists for a body. -/
def busImageNewRecord (g : String → Option Int) (now : Int) (b : BusImageBody) :
    BusImageRecord :=
  ⟨busImageSessionId b, busImageTimestamp g now b, (b.image_data).getD "",
    formatLocation b.location (jnumOr b.position_x b.exit_position_x)
      (jnumOr b.position_y b.exit_position_y),
    "bus", busImageDeviceId b, strOrD b.event_type "unknown", strOrD b.gps_location "",
    gpsCoordOrNull b.gps_latitude, gpsCoordOrNull b.gps_longitude, strOrD b.user_id "",
    b.is_public = some true⟩

/-- The synthesized bus tracking record the handler persists for a body. -/
def busImageNewTracking (g : String → Option Int) (now : Int) (b : BusImageBody) :
    BusTrackRecord :=
  ⟨busImageSessionId b, busImageTimestamp g now b, "bus",
    (if strOrD b.event_type "unknown" = "exit" then "outbound" else "inbound"),
    strOrD b.gps_location "", gpsCoordOrNull b.gps_latitude, gpsCoordOrNull b.gps_longitude,
    strOrD b.user_id "", b.is_public = some true⟩

/-- Embedding of the /bus-image handler (server.js lines 373-500).  db is the
bus_images collection as seen by the findOne duplicate lookup.  Note the
imageKey fingerprint (busImageKey) is computed by the handler but never
consulted: duplicate images are detected only through the storage lookup, and
the in-memory table is touched only for the synthesized bus tracking entry. -/
def busImageHandler (g : String → Option Int) (now : Int) (db : List BusImageRecord)
    (b : BusImageBody) (m : DedupTable) : BusImageResult :=
  if busImageGuard b then ⟨.gpsSkipped, m, none, none⟩
  else if !strTruthy b.image_data then ⟨.noImage, m, none, none⟩
  else if busImageExists db (busImageSessionId b) (busImageDeviceId b)
      (busImageTimestamp g now b) then ⟨.alreadyExists, m, none, none⟩
  else
    let p := isRecentlyProcessed now (busTrackingKey g now b) m
    if p.1 then ⟨.storedImage, p.2, some (busImageNewRecord g now b), none⟩
    else
      ⟨.storedImage, mapSet p.2 (busTrackingKey g now b) now,
        some (busImageNewRecord g now b), some (busImageNewTracking g now b)⟩

/-! ## Concrete request instances used by the claim witnesses and
counterexamples -/

/-- A 101 entry table of distinct fingerprints, all last seen at clock 0. -/
def claim4Table : DedupTable := (List.range 101).map (fun i => (toString i, (0 : Int)))

/-- A /tracking body that is valid except that its GPS latitude is the string
0 (the equator). -/
def claim1Body : TrackingBody :=
  { session_id := some "s1", device_id := some "d1", vehicle_id := none,
    timestamp := TsInput.str "2023-05-05 10:00:01", location := none,
    position_x := JNum.undef, position_y := JNum.undef,
    exit_position_x := JNum.undef, exit_position_y := JNum.undef,
    object_type := some "car", vehicle_type := none, direction := some "inbound",
    gps_location := some "53.3,-6.2", gps_latitude := JVal.str "0",
    gps_longitude := JVal.str "-6.2", user_id := some "u1", is_public := some true }

/-- A /bus-image body that is valid except that its GPS latitude is the
string 0. -/
def claim1ImageBody : BusImageBody :=
  { session_id := some "s1", device_id := some "d1",
    timestamp := TsInput.str "2023-05-05 10:00:01", image_data := some "imagedata",
    location := none, position_x := JNum.undef, position_y := JNum.undef,
    exit_position_x := JNum.undef, exit_position_y := JNum.undef,
    gps_location := some "53.3,-6.2", gps_latitude := JVal.str "0",
    gps_longitude := JVal.str "-6.2", user_id := some "u1", is_public := some true,
    event_type := some "entry" }

/-- A well-formed /logs body for a car detection. -/
def claim2Body : LogsBody :=
  { sessionId := some "s1", session_id := none, device_id := some "d1",
    vehicle_id := none, timestamp := TsInput.str "2023-05-05 10:00:01",
    event_time := TsInput.absent, location := none, position_x := JNum.undef,
    position_y := JNum.undef, exit_position_x := JNum.undef,
    exit_position_y := JNum.undef, objectType := none, object_type := some "car",
    vehicle_type := none, direction := some "inbound" }

/-- A well-formed /bus-image body. -/
def claim6Body1 : BusImageBody :=
  { claim1ImageBody with gps_latitude := JVal.str "53.3" }

/-- The same upload four seconds later: the seconds differ, the truncated
fingerprint bucket (date and hour) is the same. -/
def claim6Body2 : BusImageBody :=
  { claim6Body1 with timestamp := TsInput.str "2023-05-05 10:00:05" }

/-- First /bus-image request at clock 1000 against an empty store. -/
def claim6Run1 : BusImageResult := busImageHandler (fun _ => none) 1000 [] claim6Body1 []

/-- The store after the first request. -/
def claim6Db : List BusImageRecord := claim6Run1.savedImage.toList

/-- Second /bus-image request at clock 5000 (within the 10 second window of
the first) against the updated store and table. -/
def claim6Run2 : BusImageResult :=
  busImageHandler (fun _ => none) 5000 claim6Db claim6Body2 claim6Run1.table

/-- A /logs body with a zero x position and no exit positions. -/
def claim10LogsBody : LogsBody :=
  { claim2Body with position_x := JNum.val 0, position_y := JNum.val 4 }

/-- A /tracking body with a zero x position and no exit positions. -/
def claim10TrackingBody : TrackingBody :=
  { claim1Body with position_x := JNum.val 0, position_y := JNum.val 4 }

/-! ## Helper lemmas: digit characters -/

theorem digit_elim {P : Char → Prop} (hall : ∀ c ∈ digitChars, P c) {c : Char}
    (h : isDigitChar c = true) : P c :=
  hall c (List.mem_of_elem_eq_true h)

theorem isDigitChar_digitOf (n : Nat) : isDigitChar (digitOf n) = true := by
  have h : ∀ k, k < 10 → isDigitChar (digitChars.getD k '0') = true := by decide
  exact h (n % 10) (Nat.mod_lt _ (by norm_num))

theorem digitVal_digitOf (n : Nat) : digitVal (digitOf n) = n % 10 := by
  have h : ∀ k, k < 10 → digitVal (digitChars.getD k '0') = k := by decide
  exact h (n % 10) (Nat.mod_lt _ (by norm_num))

theorem digit_not_ws {c : Char} (h : isDigitChar c = true) : isWSChar c = false :=
  digit_elim (P := fun c => isWSChar c = false) (by decide) h

theorem digit_ne {c : Char} (h : isDigitChar c = true) (d : Char)
    (hd : isDigitChar d = false) : c ≠ d := by
  intro he
  rw [he] at h
  rw [h] at hd
  cases hd

/-! ## Helper lemmas: number-string parsing -/

theorem takeDigits_all {l : List Char} (h : l.all isDigitChar = true) :
    takeDigits l = (l, []) := by
  induction l with
  | nil => rfl
  | cons c r ih =>
    simp only [List.all_cons, Bool.and_eq_true] at h
    simp [takeDigits, h.1, ih h.2]

theorem dropWhile_id_of_not (p : Char → Bool) (l : List Char)
    (h : ∀ c ∈ l, p c = false) : l.dropWhile p = l := by
  cases l with
  | nil => rfl
  | cons c r => simp [List.dropWhile_cons, h c (by simp)]

theorem trimWS_id (l : List Char) (h : ∀ c ∈ l, isWSChar c = false) : trimWS l = l := by
  unfold trimWS
  rw [dropWhile_id_of_not _ _ h, dropWhile_id_of_not, List.reverse_reverse]
  intro c hc
  exact h c (List.mem_reverse.mp hc)

theorem all_digit_not_ws {l : List Char} (h : l.all isDigitChar = true) :
    ∀ c ∈ l, isWSChar c = false := by
  intro c hc
  exact digit_not_ws (List.all_eq_true.mp h c hc)

theorem splitSign_digit {c : Char} (hc : isDigitChar c = true) (r : List Char) :
    splitSign (c :: r) = (false, c :: r) := by
  have h1 : c ≠ '-' := digit_ne hc '-' (by decide)
  have h2 : c ≠ '+' := digit_ne hc '+' (by decide)
  simp [splitSign, h1, h2]

theorem decOrInf_digits {c : Char} {r : List Char} (hc : isDigitChar c = true)
    (hr : r.all isDigitChar = true) : decOrInf (c :: r) = true := by
  unfold decOrInf
  rw [splitSign_digit hc]
  have hinf : ¬ (c :: r = infChars) := by
    intro hcon
    have hhead : c = 'I' := by
      have := congrArg List.head? hcon
      simpa [infChars] using this
    exact digit_ne hc 'I' (by decide) hhead
  rw [if_neg hinf]
  unfold decimalLit
  rw [takeDigits_all (by simp [hc, hr])]
  simp

theorem not_hexish {c d : Char} (hd : isDigitChar d = true) (x y : Char)
    (hx : isDigitChar x = false) (hy : isDigitChar y = false) :
    ¬ (c = '0' ∧ (d = x ∨ d = y)) := by
  rintro ⟨-, hdy | hdy⟩
  · exact digit_ne hd x hx hdy
  · exact digit_ne hd y hy hdy

theorem numericBody_digits {l : List Char} (hne : l ≠ [])
    (h : l.all isDigitChar = true) : numericBody l = true := by
  match l, hne with
  | [c], _ =>
    have hc : isDigitChar c = true := by simpa using h
    simpa [numericBody] using decOrInf_digits hc (by simp)
  | c :: d :: r, _ =>
    simp only [List.all_cons, Bool.and_eq_true] at h
    obtain ⟨hc, hd, hr⟩ := h
    simp only [numericBody]
    rw [if_neg (not_hexish hd 'x' 'X' (by decide) (by decide)),
      if_neg (not_hexish hd 'o' 'O' (by decide) (by decide)),
      if_neg (not_hexish hd 'b' 'B' (by decide) (by decide))]
    exact decOrInf_digits hc (by simp [hd, hr])

theorem isNumericStr_digits {s : String} (hne : s.data ≠ [])
    (h : s.data.all isDigitChar = true) : isNumericStr s = true := by
  unfold isNumericStr
  rw [trimWS_id _ (all_digit_not_ws h)]
  rw [if_neg (by simpa [List.isEmpty_iff] using hne)]
  exact numericBody_digits hne h

theorem jsParseIntChars_digits {l : List Char} (hne : l ≠ [])
    (h : l.all isDigitChar = true) :
    jsParseIntChars l false = some (digitsToNat l : Int) := by
  match l, hne with
  | [c], _ =>
    have hc : isDigitChar c = true := by simpa using h
    simp [jsParseIntChars, takeDigits, hc]
  | c :: d :: r, _ =>
    simp only [List.all_cons, Bool.and_eq_true] at h
    obtain ⟨hc, hd, hr⟩ := h
    simp only [jsParseIntChars]
    rw [if_neg (not_hexish hd 'x' 'X' (by decide) (by decide))]
    rw [takeDigits_all (by simp [hc, hd, hr])]
    simp

theorem jsParseInt_digits {s : String} (hne : s.data ≠ [])
    (h : s.data.all isDigitChar = true) :
    jsParseInt s = some (digitsToNat s.data : Int) := by
  unfold jsParseInt
  rw [dropWhile_id_of_not _ _ (all_digit_not_ws h)]
  obtain ⟨c, r, hcr⟩ := List.exists_cons_of_ne_nil hne
  rw [hcr] at h ⊢
  have hc : isDigitChar c = true := (Bool.and_eq_true .. ▸ (List.all_cons .. ▸ h)).1
  rw [splitSign_digit hc]
  exact jsParseIntChars_digits (by simp) h

/-! ## Helper lemmas: calendar field bounds -/

theorem yoeAux_le (n doe : Nat) : yoeAux n doe ≤ n := by
  induction n with
  | zero => simp [yoeAux]
  | succ k ih =>
    unfold yoeAux
    split
    · exact Nat.le_refl _
    · exact Nat.le_succ_of_le ih

theorem cumDays_yoeAux_le (n doe : Nat) : cumDaysOfEra (yoeAux n doe) ≤ doe := by
  induction n with
  | zero => simp [yoeAux, cumDaysOfEra]
  | succ k ih =>
    unfold yoeAux
    split
    · assumption
    · exact ih

theorem yoeAux_maximal (n doe : Nat) :
    ∀ j, yoeAux n doe < j → j ≤ n → doe < cumDaysOfEra j := by
  induction n with
  | zero => omega
  | succ k ih =>
    intro j hj1 hj2
    unfold yoeAux at hj1
    by_cases hc : cumDaysOfEra (k + 1) ≤ doe
    · rw [if_pos hc] at hj1
      omega
    · rw [if_neg hc] at hj1
      rcases Nat.lt_or_ge j (k + 1) with hlt | hge
      · exact ih j hj1 (by omega)
      · have hj : j = k + 1 := by omega
        subst hj
        omega

set_option maxRecDepth 40000 in
theorem cumDays_step : ∀ y, y < 400 → cumDaysOfEra (y + 1) ≤ cumDaysOfEra y + 366 := by
  decide

theorem doy_le_365 (doe : Nat) (h : doe < 146097) :
    doe - cumDaysOfEra (yoeOf doe) ≤ 365 := by
  unfold yoeOf
  by_cases hy : yoeAux 399 doe = 399
  · have hc : cumDaysOfEra 399 = 145731 := by norm_num [cumDaysOfEra]
    rw [hy, hc]
    omega
  · have hle : yoeAux 399 doe ≤ 399 := yoeAux_le 399 doe
    have hlt : yoeAux 399 doe < 399 := lt_of_le_of_ne hle hy
    have h1 : doe < cumDaysOfEra (yoeAux 399 doe + 1) :=
      yoeAux_maximal 399 doe (yoeAux 399 doe + 1) (by omega) (by omega)
    have h2 := cumDays_step (yoeAux 399 doe) (by omega)
    have h3 : cumDaysOfEra (yoeAux 399 doe) ≤ doe := cumDays_yoeAux_le 399 doe
    omega

set_option maxRecDepth 40000 in
theorem doy_tables : ∀ dd, dd < 366 →
    ((5 * dd + 2) / 153 ≤ 11 ∧
     dd - (153 * ((5 * dd + 2) / 153) + 2) / 5 + 1 ≤ 31 ∧
     1 ≤ dd - (153 * ((5 * dd + 2) / 153) + 2) / 5 + 1) := by decide

theorem doeOf_lt (z : Int) : doeOf z < 146097 := by
  unfold doeOf
  have h1 : (z + 719468).emod 146097 < 146097 := Int.emod_lt_of_pos _ (by norm_num)
  have h2 : 0 ≤ (z + 719468).emod 146097 := Int.emod_nonneg _ (by norm_num)
  omega

theorem doyOf_le (z : Int) : doyOf z ≤ 365 := doy_le_365 (doeOf z) (doeOf_lt z)

theorem monthOf_bounds (z : Int) : 1 ≤ monthOf z ∧ monthOf z ≤ 12 := by
  unfold monthOf
  have hmp : mpOf z ≤ 11 := by
    unfold mpOf
    exact (doy_tables (doyOf z) (by have := doyOf_le z; omega)).1
  split <;> omega

theorem dayOf_bounds (z : Int) : 1 ≤ dayOf z ∧ dayOf z ≤ 31 := by
  have h := doy_tables (doyOf z) (by have := doyOf_le z; omega)
  unfold dayOf mpOf
  unfold mpOf at h
  exact ⟨h.2.2, h.2.1⟩

theorem sodOf_lt (ms : Int) : sodOf ms < 86400 := by
  unfold sodOf
  have h1 : (ms.fdiv 1000).emod 86400 < 86400 := Int.emod_lt_of_pos _ (by norm_num)
  have h2 : 0 ≤ (ms.fdiv 1000).emod 86400 := Int.emod_nonneg _ (by norm_num)
  omega

/-! ## Helper lemmas: the rendered canonical string -/

theorem canonicalParseableList_render (y mo d hh mi ss : Nat)
    (hmo1 : 1 ≤ mo) (hmo2 : mo ≤ 12) (hd1 : 1 ≤ d) (hd2 : d ≤ 31)
    (hhh : hh ≤ 23) (hmi : mi ≤ 59) (hss : ss ≤ 59) :
    canonicalParseableList (renderCanonical y mo d hh mi ss) = true := by
  simp only [renderCanonical, pad4Chars, pad2Chars, List.cons_append, List.nil_append,
    canonicalParseableList, matchesCanonicalList, isDigitChar_digitOf, digitVal_digitOf,
    Bool.and_eq_true, decide_eq_true_eq]
  refine ⟨by simp, ?_⟩
  omega

theorem canonicalParseable_canonicalOfMillis (ms : Int) :
    canonicalParseable (canonicalOfMillis ms) = true := by
  have hsod := sodOf_lt ms
  have hmo := monthOf_bounds (daysOf ms)
  have hd := dayOf_bounds (daysOf ms)
  unfold canonicalParseable canonicalOfMillis civilFromDays
  exact canonicalParseableList_render _ _ _ _ _ _ hmo.1 hmo.2 hd.1 hd.2
    (by omega) (by omega) (by omega)

theorem matchesCanonical_of_parseable {s : String} (h : canonicalParseable s = true) :
    matchesCanonical s = true := by
  obtain ⟨l⟩ := s
  have h2 : canonicalParseableList l = true := h
  show matchesCanonicalList l = true
  unfold canonicalParseableList at h2
  split at h2
  · exact (Bool.and_eq_true .. ▸ h2).1
  · cases h2

theorem toISOStringSlice_inRange {ms : Int} (h1 : 0 ≤ yearOf ms) (h2 : yearOf ms ≤ 9999) :
    toISOStringSlice ms = canonicalOfMillis ms := by
  unfold toISOStringSlice
  exact if_pos ⟨h1, h2⟩

theorem canonicalParseable_toISOStringSlice {ms : Int} (h1 : 0 ≤ yearOf ms)
    (h2 : yearOf ms ≤ 9999) : canonicalParseable (toISOStringSlice ms) = true := by
  rw [toISOStringSlice_inRange h1 h2]
  exact canonicalParseable_canonicalOfMillis ms

/-! ## Helper lemmas: formatTimestamp routing -/

theorem formatTimestamp_digitStr (g : String → Option Int) (now : Int) {s : String}
    (hne : s.data ≠ []) (h : s.data.all isDigitChar = true)
    (hv : dateValid (digitsToNat s.data : Int)) :
    formatTimestamp g now (.str s) = toISOStringSlice (digitsToNat s.data) := by
  simp only [formatTimestamp]
  rw [if_neg (by simpa [List.isEmpty_iff] using hne)]
  rw [if_pos (isNumericStr_digits hne h), jsParseInt_digits hne h]
  simp [hv]

theorem matchesCanonicalList_shape {l : List Char} (h : matchesCanonicalList l = true) :
    ∃ y1 y2 y3 y4 o1 o2 d1 d2 hh1 hh2 i1 i2 x1 x2,
      l = [y1, y2, y3, y4, '-', o1, o2, '-', d1, d2, ' ', hh1, hh2, ':', i1, i2, ':', x1, x2] ∧
      isDigitChar y1 = true ∧ isDigitChar y2 = true ∧ isDigitChar y3 = true ∧
      isDigitChar y4 = true ∧ isDigitChar o1 = true ∧ isDigitChar o2 = true ∧
      isDigitChar d1 = true ∧ isDigitChar d2 = true ∧ isDigitChar hh1 = true ∧
      isDigitChar hh2 = true ∧ isDigitChar i1 = true ∧ isDigitChar i2 = true ∧
      isDigitChar x1 = true ∧ isDigitChar x2 = true := by
  unfold matchesCanonicalList at h
  split at h
  next y1 y2 y3 y4 s1 o1 o2 s2 d1 d2 s3 hh1 hh2 s4 i1 i2 s5 x1 x2 =>
    simp only [Bool.and_eq_true, decide_eq_true_eq, and_assoc] at h
    obtain ⟨hy1, hy2, hy3, hy4, hs1, ho1, ho2, hs2, hd1, hd2, hs3,
      hhh1, hhh2, hs4, hi1, hi2, hs5, hx1, hx2⟩ := h
    subst hs1 hs2 hs3 hs4 hs5
    exact ⟨y1, y2, y3, y4, o1, o2, d1, d2, hh1, hh2, i1, i2, x1, x2, rfl,
      hy1, hy2, hy3, hy4, ho1, ho2, hd1, hd2, hhh1, hhh2, hi1, hi2, hx1, hx2⟩
  next => cases h

theorem dropWhile_cons_head {c : Char} (r : List Char) (hc : isWSChar c = false) :
    List.dropWhile isWSChar (c :: r) = c :: r := by
  simp [List.dropWhile_cons, hc]

theorem takeDigits_cons_digit {c : Char} (h : isDigitChar c = true) (r : List Char) :
    takeDigits (c :: r) = (c :: (takeDigits r).1, (takeDigits r).2) := by
  simp [takeDigits, h]

theorem takeDigits_cons_nondigit {c : Char} (h : isDigitChar c = false) (r : List Char) :
    takeDigits (c :: r) = ([], c :: r) := by
  simp [takeDigits, h]

theorem digit_beq_T {c : Char} (h : isDigitChar c = true) : (('T' : Char) == c) = false :=
  beq_eq_false_iff_ne.mpr (fun he => digit_ne h 'T' (by decide) he.symm)

theorem isNumericStr_canonical {y1 y2 y3 y4 o1 o2 d1 d2 hh1 hh2 i1 i2 x1 x2 : Char}
    (hy1 : isDigitChar y1 = true) (hy2 : isDigitChar y2 = true)
    (hy3 : isDigitChar y3 = true) (hy4 : isDigitChar y4 = true)
    (hx2 : isDigitChar x2 = true) :
    isNumericStr (String.mk [y1, y2, y3, y4, '-', o1, o2, '-', d1, d2, ' ',
      hh1, hh2, ':', i1, i2, ':', x1, x2]) = false := by
  have h1 := digit_not_ws hy1
  have h2 := digit_not_ws hx2
  unfold isNumericStr
  have hrev : List.reverse [y1, y2, y3, y4, '-', o1, o2, '-', d1, d2, ' ',
      hh1, hh2, ':', i1, i2, ':', x1, x2] =
      [x2, x1, ':', i2, i1, ':', hh2, hh1, ' ', d2, d1, '-', o2, o1, '-',
       y4, y3, y2, y1] := by rfl
  have hrev2 : List.reverse [x2, x1, ':', i2, i1, ':', hh2, hh1, ' ', d2, d1, '-',
      o2, o1, '-', y4, y3, y2, y1] =
      [y1, y2, y3, y4, '-', o1, o2, '-', d1, d2, ' ',
       hh1, hh2, ':', i1, i2, ':', x1, x2] := by rfl
  show (if (trimWS _).isEmpty then true else numericBody (trimWS _)) = false
  rw [show trimWS [y1, y2, y3, y4, '-', o1, o2, '-', d1, d2, ' ',
      hh1, hh2, ':', i1, i2, ':', x1, x2] =
      [y1, y2, y3, y4, '-', o1, o2, '-', d1, d2, ' ',
       hh1, hh2, ':', i1, i2, ':', x1, x2] from by
    unfold trimWS
    rw [dropWhile_cons_head _ h1, hrev, dropWhile_cons_head _ h2, hrev2]]
  simp only [List.isEmpty_cons, Bool.false_eq_true, if_false]
  simp only [numericBody]
  rw [if_neg (not_hexish hy2 'x' 'X' (by decide) (by decide)),
    if_neg (not_hexish hy2 'o' 'O' (by decide) (by decide)),
    if_neg (not_hexish hy2 'b' 'B' (by decide) (by decide))]
  unfold decOrInf
  rw [splitSign_digit hy1]
  rw [if_neg (by simp [infChars])]
  unfold decimalLit
  rw [takeDigits_cons_digit hy1, takeDigits_cons_digit hy2, takeDigits_cons_digit hy3,
    takeDigits_cons_digit hy4, takeDigits_cons_nondigit (by decide)]
  simp [expPart]

theorem canonical_not_contains_T {y1 y2 y3 y4 o1 o2 d1 d2 hh1 hh2 i1 i2 x1 x2 : Char}
    (hy1 : isDigitChar y1 = true) (hy2 : isDigitChar y2 = true)
    (hy3 : isDigitChar y3 = true) (hy4 : isDigitChar y4 = true)
    (ho1 : isDigitChar o1 = true) (ho2 : isDigitChar o2 = true)
    (hd1 : isDigitChar d1 = true) (hd2 : isDigitChar d2 = true)
    (hhh1 : isDigitChar hh1 = true) (hhh2 : isDigitChar hh2 = true)
    (hi1 : isDigitChar i1 = true) (hi2 : isDigitChar i2 = true)
    (hx1 : isDigitChar x1 = true) (hx2 : isDigitChar x2 = true) :
    ([y1, y2, y3, y4, '-', o1, o2, '-', d1, d2, ' ',
      hh1, hh2, ':', i1, i2, ':', x1, x2].contains 'T') = false := by
  simp only [List.contains, List.elem, digit_beq_T hy1, digit_beq_T hy2, digit_beq_T hy3,
    digit_beq_T hy4, digit_beq_T ho1, digit_beq_T ho2, digit_beq_T hd1, digit_beq_T hd2,
    digit_beq_T hhh1, digit_beq_T hhh2, digit_beq_T hi1, digit_beq_T hi2,
    digit_beq_T hx1, digit_beq_T hx2]
  decide

theorem formatTimestamp_matches (g : String → Option Int) (now : Int) {s : String}
    (h : matchesCanonical s = true) : formatTimestamp g now (.str s) = s := by
  obtain ⟨l⟩ := s
  have hl : matchesCanonicalList l = true := h
  obtain ⟨y1, y2, y3, y4, o1, o2, d1, d2, hh1, hh2, i1, i2, x1, x2, hform,
    hy1, hy2, hy3, hy4, ho1, ho2, hd1, hd2, hhh1, hhh2, hi1, hi2, hx1, hx2⟩ :=
    matchesCanonicalList_shape hl
  subst hform
  simp only [formatTimestamp]
  rw [if_neg (by simp)]
  rw [if_neg (by simp [isNumericStr_canonical hy1 hy2 hy3 hy4 hx2])]
  rw [if_neg (by
    rw [canonical_not_contains_T hy1 hy2 hy3 hy4 ho1 ho2 hd1 hd2 hhh1 hhh2 hi1 hi2 hx1 hx2]
    simp)]
  rw [if_pos h]

/-! ## Helper lemmas: the duplicate suppressor table -/

theorem mapGet_mapSet_self (m : DedupTable) (k : String) (v : Int) :
    mapGet (mapSet m k v) k = some v := by
  induction m with
  | nil => simp [mapSet, mapGet]
  | cons e r ih =>
    by_cases he : e.1 = k
    · simp [mapSet, he, mapGet]
    · simp [mapSet, he, mapGet, ih]

theorem mapGet_mapSet_ne (m : DedupTable) {k k2 : String} (v : Int) (h : k2 ≠ k) :
    mapGet (mapSet m k v) k2 = mapGet m k2 := by
  induction m with
  | nil => simp [mapSet, mapGet, Ne.symm h]
  | cons e r ih =>
    by_cases he : e.1 = k
    · simp [mapSet, he, mapGet, Ne.symm h, h]
    · by_cases he2 : e.1 = k2 <;> simp [mapSet, he, mapGet, he2, ih, h]

theorem mapGet_filter_none {m : DedupTable} {k : String} (p : String × Int → Bool)
    (h : mapGet m k = none) : mapGet (m.filter p) k = none := by
  induction m with
  | nil => simp [mapGet]
  | cons e r ih =>
    simp only [mapGet] at h
    by_cases he : e.1 = k
    · rw [if_pos he] at h
      cases h
    · rw [if_neg he] at h
      by_cases hp : p e = true
      · simp [List.filter_cons, hp, mapGet, he, ih h]
      · simp only [List.filter_cons, if_neg hp]
        simp only [Bool.not_eq_true] at hp
        simp [hp, ih h]

theorem mapGet_filter_some {m : DedupTable} {k : String} {v : Int}
    (p : String × Int → Bool) (h : mapGet m k = some v) (hp : p (k, v) = true) :
    mapGet (m.filter p) k = some v := by
  induction m with
  | nil => cases h
  | cons e r ih =>
    simp only [mapGet] at h
    by_cases he : e.1 = k
    · rw [if_pos he] at h
      injection h with hv
      have hek : e = (k, v) := by
        cases e
        simp only at he hv
        rw [he, hv]
      rw [hek]
      simp [List.filter_cons, hp, mapGet]
    · rw [if_neg he] at h
      by_cases hpe : p e = true
      · simp [List.filter_cons, hpe, mapGet, he, ih h]
      · simp only [List.filter_cons, if_neg hpe]
        exact ih h

theorem mapGet_recordAndClean_self (now : Int) (k : String) (m : DedupTable) :
    mapGet (recordAndClean now k m) k = some now := by
  unfold recordAndClean sweep
  split
  · exact mapGet_filter_some _ (mapGet_mapSet_self m k now) (by simp)
  · exact mapGet_mapSet_self m k now

theorem mapGet_recordAndClean_ne_none (now : Int) {k k2 : String} (m : DedupTable)
    (hne : k2 ≠ k) (h : mapGet m k2 = none) :
    mapGet (recordAndClean now k m) k2 = none := by
  unfold recordAndClean sweep
  split
  · exact mapGet_filter_none _ (by rw [mapGet_mapSet_ne m now hne]; exact h)
  · rw [mapGet_mapSet_ne m now hne]
    exact h

theorem irp_dup {m : DedupTable} {k : String} {t now : Int}
    (h : mapGet m k = some t) (hw : now - t < 10000) :
    isRecentlyProcessed now k m = (true, m) := by
  unfold isRecentlyProcessed
  rw [h]
  simp [hw]

theorem irp_fresh {m : DedupTable} {k : String} (now : Int) (h : mapGet m k = none) :
    isRecentlyProcessed now k m = (false, recordAndClean now k m) := by
  unfold isRecentlyProcessed
  rw [h]

theorem irp_stale {m : DedupTable} {k : String} {t now : Int}
    (h : mapGet m k = some t) (hw : 10000 ≤ now - t) :
    isRecentlyProcessed now k m = (false, recordAndClean now k m) := by
  unfold isRecentlyProcessed
  rw [h]
  simp [show ¬ (now - t < 10000) by omega]

theorem recordAndClean_evicts (now : Int) (k : String) (m : DedupTable)
    (h : 100 < (mapSet m k now).length) :
    ∀ e ∈ mapSet m k now, (e ∈ recordAndClean now k m ↔ now - e.2 ≤ 30000) := by
  unfold recordAndClean sweep
  rw [if_pos h]
  intro e he
  constructor
  · intro hmem
    have hm := List.mem_filter.mp hmem
    have := hm.2
    simp only [Bool.not_eq_eq_eq_not, Bool.not_true, decide_eq_false_iff_not] at this
    omega
  · intro hle
    exact List.mem_filter.mpr ⟨he, by simp; omega⟩

theorem recordAndClean_small (now : Int) (k : String) (m : DedupTable)
    (h : ¬ 100 < (mapSet m k now).length) :
    recordAndClean now k m = mapSet m k now := by
  unfold recordAndClean
  rw [if_neg h]

/-! ## Helper lemmas: number rendering and substring search -/

theorem natCharsAux_digits : ∀ (fuel m : Nat), ∀ c ∈ natCharsAux fuel m,
    isDigitChar c = true := by
  intro fuel
  induction fuel with
  | zero =>
    intro m c hc
    cases hc
  | succ f ih =>
    intro m c hc
    unfold natCharsAux at hc
    split at hc
    · simp only [List.mem_singleton] at hc
      subst hc
      exact isDigitChar_digitOf _
    · rcases List.mem_append.mp hc with h | h
      · exact ih _ c h
      · simp only [List.mem_singleton] at h
        subst h
        exact isDigitChar_digitOf _

theorem natChars_digits (n : Nat) : ∀ c ∈ natChars n, isDigitChar c = true :=
  natCharsAux_digits (n + 1) n

theorem natChars_ne_nil (n : Nat) : natChars n ≠ [] := by
  unfold natChars natCharsAux
  split <;> simp

theorem intChars_chars (n : Int) : ∀ c ∈ intChars n, isDigitChar c = true ∨ c = '-' := by
  intro c hc
  unfold intChars at hc
  split at hc
  · rcases List.mem_cons.mp hc with h | h
    · exact Or.inr h
    · exact Or.inl (natChars_digits _ c h)
  · exact Or.inl (natChars_digits _ c hc)

theorem intChars_ne_nil (n : Int) : intChars n ≠ [] := by
  unfold intChars
  split
  · simp
  · exact natChars_ne_nil _

theorem mem_of_containsSub {needle hay : List Char} (h : containsSub needle hay = true) :
    ∀ c ∈ needle, c ∈ hay := by
  induction hay with
  | nil =>
    intro c hc
    unfold containsSub at h
    have hn : needle = [] := by
      cases needle with
      | nil => rfl
      | cons a as => simp [List.isPrefixOf] at h
    subst hn
    cases hc
  | cons a t ih =>
    intro c hc
    unfold containsSub at h
    simp only [Bool.or_eq_true] at h
    rcases h with hp | hr
    · exact (List.isPrefixOf_iff_prefix.mp hp).subset hc
    · exact List.mem_cons_of_mem a (ih hr c hc)

theorem jnum_pair_chars (a b : Int) :
    ∀ c ∈ intChars a ++ ',' :: intChars b,
      isDigitChar c = true ∨ c = '-' ∨ c = ',' := by
  intro c hc
  rcases List.mem_append.mp hc with h | h
  · rcases intChars_chars a c h with h2 | h2
    · exact Or.inl h2
    · exact Or.inr (Or.inl h2)
  · rcases List.mem_cons.mp h with h2 | h2
    · exact Or.inr (Or.inr h2)
    · rcases intChars_chars b c h2 with h3 | h3
      · exact Or.inl h3
      · exact Or.inr (Or.inl h3)

theorem irp_true_frame {now : Int} {k : String} {m : DedupTable}
    (h : (isRecentlyProcessed now k m).1 = true) :
    (isRecentlyProcessed now k m).2 = m := by
  cases hg : mapGet m k with
  | none =>
    rw [irp_fresh now hg] at h
    cases h
  | some t =>
    by_cases hw : now - t < 10000
    · rw [irp_dup hg hw]
    · rw [irp_stale hg (by omega)] at h
      cases h

/-! ## Claim C3: well-formedness of the normalized timestamp -/

/-- Claim C3, amended: for absent input, for valid Date objects and for
digit-string timestamps denoting a valid instant with a four digit year, and
for strings already matching the canonical pattern and parseable, the
normalizer returns a string that exactly matches YYYY-MM-DD HH:MM:SS and is
parseable back into a valid point in time (assuming the current clock itself
lies in the four digit year range).  The claim's universal form fails: a
string containing T is returned as its first 19 characters with the first T
replaced by a space, without validation, instead of the current-time
fallback. -/
theorem claim3_amended (g : String → Option Int) (now : Int) (inp : TsInput)
    (hnow : 0 ≤ yearOf now ∧ yearOf now ≤ 9999)
    (hcls : inp = TsInput.absent ∨ inp = TsInput.dateObj none ∨
      (∃ t, inp = TsInput.dateObj (some t) ∧ 0 ≤ yearOf t ∧ yearOf t ≤ 9999) ∨
      (∃ s, inp = TsInput.str s ∧ s.data ≠ [] ∧ s.data.all isDigitChar = true ∧
        dateValid (digitsToNat s.data : Int) ∧
        0 ≤ yearOf (digitsToNat s.data) ∧ yearOf (digitsToNat s.data) ≤ 9999) ∨
      (∃ s, inp = TsInput.str s ∧ canonicalParseable s = true)) :
    canonicalParseable (formatTimestamp g now inp) = true := by
  rcases hcls with h | h | ⟨t, h, h1, h2⟩ | ⟨s, h, hne, hdig, hv, h1, h2⟩ | ⟨s, h, hp⟩ <;>
    subst h
  · exact canonicalParseable_toISOStringSlice hnow.1 hnow.2
  · exact canonicalParseable_toISOStringSlice hnow.1 hnow.2
  · exact canonicalParseable_toISOStringSlice h1 h2
  · rw [formatTimestamp_digitStr g now hne hdig hv]
    exact canonicalParseable_toISOStringSlice h1 h2
  · rw [formatTimestamp_matches g now (matchesCanonical_of_parseable hp)]
    exact hp

/-- Witness for claim C3's amended theorem at the digit string 1000. -/
theorem claim3_witness :
    canonicalParseable (formatTimestamp (fun _ => none) 0 (TsInput.str "1000")) = true :=
  claim3_amended (fun _ => none) 0 (TsInput.str "1000") (by decide)
    (Or.inr (Or.inr (Or.inr (Or.inl
      ⟨"1000", rfl, by decide, by decide, by decide, by decide, by decide⟩))))

/-- Counterexample to claim C3 as stated: the garbage input xTy, which
contains the separator T, is returned as x y, which neither matches the
canonical pattern nor is the current-time fallback, and the normalizer did
not fall back to the current time. -/
theorem claim3_counterexample :
    formatTimestamp (fun _ => none) 0 (TsInput.str "xTy") = "x y" ∧
    matchesCanonical (formatTimestamp (fun _ => none) 0 (TsInput.str "xTy")) = false ∧
    canonicalParseable (formatTimestamp (fun _ => none) 0 (TsInput.str "xTy")) = false := by
  refine ⟨by decide, by decide, by decide⟩

/-! ## Claim C9: numeric-string timestamps -/

/-- Claim C9, amended: for pure digit-string timestamps t denoting a valid
instant with a four digit year, the normalizer interprets t as milliseconds
since the Unix epoch and returns exactly the canonical formatting of that
instant truncated to whole seconds.  The claim's full form over all
numeric-strings fails: the branch test accepts every Number()-coercible
string but converts with parseInt, so an exponent form such as 1e3 is
interpreted as 1 ms rather than 1000 ms. -/
theorem claim9_amended (g : String → Option Int) (now : Int) (s : String)
    (hne : s.data ≠ []) (hdig : s.data.all isDigitChar = true)
    (hv : dateValid (digitsToNat s.data : Int))
    (h1 : 0 ≤ yearOf (digitsToNat s.data)) (h2 : yearOf (digitsToNat s.data) ≤ 9999) :
    formatTimestamp g now (TsInput.str s) = canonicalOfMillis (digitsToNat s.data) := by
  rw [formatTimestamp_digitStr g now hne hdig hv]
  exact toISOStringSlice_inRange h1 h2

/-- Witness for claim C9's amended theorem at the digit string 1683281445123. -/
theorem claim9_witness :
    formatTimestamp (fun _ => none) 0 (TsInput.str "1683281445123") =
      canonicalOfMillis 1683281445123 ∧
    canonicalOfMillis 1683281445123 = "2023-05-05 10:10:45" := by
  constructor
  · exact claim9_amended (fun _ => none) 0 "1683281445123" (by decide) (by decide)
      (by decide) (by decide) (by decide)
  · decide

/-- Counterexample to claim C9 as stated: 1e3 is a numeric string whose
numeric value is 1000, but the normalizer formats the instant 1 ms (the
parseInt of 1e3) instead of the instant 1000 ms. -/
theorem claim9_counterexample :
    isNumericStr "1e3" = true ∧
    formatTimestamp (fun _ => none) 0 (TsInput.str "1e3") = canonicalOfMillis 1 ∧
    canonicalOfMillis 1 ≠ canonicalOfMillis 1000 := by
  refine ⟨by decide, by decide, by decide⟩

/-! ## Claim C7: the location formatter case analysis -/

/-- Claim C7: formatLocation implements exactly the case analysis of the spec
(raw wins when truthy, not the null,null sentinel, and free of the substring
undefined; otherwise present coordinates are paired; otherwise 0,0), and the
two concrete examples of the spec hold. -/
theorem claim7_formatLocation_spec :
    (∀ (loc : Option String) (x y : JNum),
      formatLocation loc x y = normalizeLocationSpec loc x y) ∧
    formatLocation (some "5,6") (JNum.val 1) (JNum.val 2) = "5,6" ∧
    formatLocation none (JNum.val 3) (JNum.val 4) = "3,4" := by
  refine ⟨?_, by decide, by decide⟩
  intro loc x y
  cases loc with
  | none =>
    simp [formatLocation, normalizeLocationSpec, strTruthy, Bool.and_eq_true]
  | some s =>
    by_cases h1 : s = ""
    · subst h1
      simp [formatLocation, normalizeLocationSpec, strTruthy, Bool.and_eq_true]
    · have hne : ¬ s.data.isEmpty = true := by
        intro hd
        exact h1 (by
          cases s with
          | mk l =>
            simp [List.isEmpty_iff] at hd
            subst hd
            rfl)
      by_cases h2 : s = "null,null"
      · subst h2
        simp [formatLocation, normalizeLocationSpec, strTruthy, Bool.and_eq_true]
      · by_cases h3 : containsSub "undefined".data s.data = true
        · simp [formatLocation, normalizeLocationSpec, strTruthy, hne, h1, h2, h3,
            Bool.and_eq_true]
        · have h3f : containsSub "undefined".data s.data = false := by
            simpa using h3
          simp [formatLocation, normalizeLocationSpec, strTruthy, hne, h1, h2, h3f,
            Bool.and_eq_true]

/-! ## Claim C8: invariants of the formatted location -/

/-- Claim C8: for every combination of inputs of the formatter's contract the
returned location string is never empty, never contains the substring
undefined, and is never the literal null,null. -/
theorem claim8_location_invariant (loc : Option String) (x y : JNum) :
    formatLocation loc x y ≠ "" ∧
    containsSub "undefined".data (formatLocation loc x y).data = false ∧
    formatLocation loc x y ≠ "null,null" := by
  unfold formatLocation
  split
  next hcond =>
    simp only [Bool.and_eq_true, Bool.not_eq_eq_eq_not, Bool.not_true,
      decide_eq_false_iff_not] at hcond
    obtain ⟨⟨htr, hnn⟩, hub⟩ := hcond
    refine ⟨?_, hub, hnn⟩
    intro he
    cases loc with
    | none => simp [strTruthy] at htr
    | some s =>
      simp only [Option.getD] at he
      subst he
      simp [strTruthy] at htr
  next =>
    split
    next hxy =>
      simp only [Bool.and_eq_true] at hxy
      obtain ⟨hx, hy⟩ := hxy
      cases x with
      | undef => cases hx
      | null => cases hx
      | val a =>
        cases y with
        | undef => cases hy
        | null => cases hy
        | val b =>
          simp only [jnumChars]
          refine ⟨?_, ?_, ?_⟩
          · intro he
            have hd : intChars a ++ ',' :: intChars b = [] := congrArg String.data he
            cases hn : intChars a with
            | nil => exact intChars_ne_nil a hn
            | cons c r =>
              rw [hn] at hd
              cases hd
          · by_contra hcon
            have hc : containsSub "undefined".data
                (String.mk (intChars a ++ ',' :: intChars b)).data = true := by
              cases hcc : containsSub "undefined".data
                  (String.mk (intChars a ++ ',' :: intChars b)).data
              · exact absurd hcc hcon
              · rfl
            have hu : 'u' ∈ intChars a ++ ',' :: intChars b :=
              mem_of_containsSub hc 'u' (by decide)
            rcases jnum_pair_chars a b 'u' hu with h | h | h
            · cases h
            · cases h
            · cases h
          · intro he
            have hd : intChars a ++ ',' :: intChars b = "null,null".data :=
              congrArg String.data he
            have hn : 'n' ∈ intChars a ++ ',' :: intChars b := by
              rw [hd]
              decide
            rcases jnum_pair_chars a b 'n' hn with h | h | h
            · cases h
            · cases h
            · cases h
    next =>
      refine ⟨by decide, by decide, by decide⟩

/-! ## Claim C10: zero coordinates are absorbed by the || chains -/

/-- Claim C10: in the /logs and /tracking handlers a coordinate value 0 is
treated as absent because coordinates are combined with the JS || operator
before reaching the formatter: with no location and position 0,4 the stored
location is the default 0,0 (not 0,4); a zero position with exit position 5
resolves to 5; yet the formatter itself accepts 0 as a present coordinate
(formatLocation none 0 4 is 0,4). -/
theorem claim10_zero_coordinate (b : LogsBody) (b2 : TrackingBody)
    (h1 : b.location = none) (h2 : b.position_x = JNum.val 0)
    (h3 : b.position_y = JNum.val 4) (h4 : b.exit_position_x = JNum.undef)
    (h5 : b.exit_position_y = JNum.undef)
    (t1 : b2.location = none) (t2 : b2.position_x = JNum.val 0)
    (t3 : b2.position_y = JNum.val 4) (t4 : b2.exit_position_x = JNum.undef)
    (t5 : b2.exit_position_y = JNum.undef) :
    logsLocation b = "0,0" ∧ trackingLocation b2 = "0,0" ∧
    (∀ c : LogsBody, c.position_x = JNum.val 0 → c.exit_position_x = JNum.val 5 →
      jnumOr c.position_x c.exit_position_x = JNum.val 5) ∧
    formatLocation none (JNum.val 0) (JNum.val 4) = "0,4" := by
  refine ⟨?_, ?_, ?_, by decide⟩
  · rw [logsLocation, h1, h2, h3, h4, h5]
    decide
  · rw [trackingLocation, t1, t2, t3, t4, t5]
    decide
  · intro c hc1 hc2
    rw [hc1, hc2]
    decide

/-- Witness for claim C10 at concrete /logs and /tracking bodies with
position 0,4 and absent exit positions. -/
theorem claim10_witness :
    logsLocation claim10LogsBody = "0,0" ∧
    trackingLocation claim10TrackingBody = "0,0" := by
  have h := claim10_zero_coordinate claim10LogsBody claim10TrackingBody
    rfl rfl rfl rfl rfl rfl rfl rfl rfl rfl
  exact ⟨h.1, h.2.1⟩

/-! ## Claim C4: the passive eviction policy -/

/-- Claim C4, amended: whenever, after recording a fingerprint, the table
size exceeds 100 entries, every entry whose age is STRICTLY greater than
30000 ms is removed and no entry aged at most 30000 ms is removed; when the
size after recording is at most 100, no entry is evicted.  The claim's
boundary is off: the source deletes on (now - lastSeen) > 30000, so an entry
aged exactly 30000 ms survives the sweep. -/
theorem claim4_amended (now : Int) (k : String) (m : DedupTable)
    (hdup : (isRecentlyProcessed now k m).1 = false) :
    (100 < (mapSet m k now).length →
      ∀ e ∈ mapSet m k now,
        (e ∈ (isRecentlyProcessed now k m).2 ↔ now - e.2 ≤ 30000)) ∧
    ((mapSet m k now).length ≤ 100 →
      (isRecentlyProcessed now k m).2 = mapSet m k now) := by
  have hsnd : (isRecentlyProcessed now k m).2 = recordAndClean now k m := by
    cases hg : mapGet m k with
    | none => rw [irp_fresh now hg]
    | some t =>
      by_cases hw : now - t < 10000
      · rw [irp_dup hg hw] at hdup
        cases hdup
      · rw [irp_stale hg (by omega)]
  rw [hsnd]
  constructor
  · intro hlen e he
    exact recordAndClean_evicts now k m hlen e he
  · intro hlen
    exact recordAndClean_small now k m (by omega)

/-- Witness for claim C4's amended theorem: a fresh fingerprint recorded into
an empty table evicts nothing. -/
theorem claim4_witness :
    (isRecentlyProcessed 0 "a" ([] : DedupTable)).1 = false ∧
    ((100 < (mapSet ([] : DedupTable) "a" 0).length →
        ∀ e ∈ mapSet ([] : DedupTable) "a" 0,
          (e ∈ (isRecentlyProcessed 0 "a" ([] : DedupTable)).2 ↔ (0 : Int) - e.2 ≤ 30000)) ∧
     ((mapSet ([] : DedupTable) "a" 0).length ≤ 100 →
        (isRecentlyProcessed 0 "a" ([] : DedupTable)).2 = mapSet ([] : DedupTable) "a" 0)) :=
  ⟨by decide, claim4_amended 0 "a" [] (by decide)⟩

/-- Counterexample to claim C4 as stated: recording a fresh fingerprint at
clock 30000 into a table of 101 entries all last seen at clock 0 makes the
size exceed 100, yet the entry with key 0 — whose age is exactly 30000 ms,
hence at least 30000 ms — is NOT removed. -/
theorem claim4_counterexample :
    (isRecentlyProcessed 30000 "fresh" claim4Table).1 = false ∧
    100 < (mapSet claim4Table "fresh" 30000).length ∧
    (30000 : Int) - 0 ≥ 30000 ∧
    mapGet (isRecentlyProcessed 30000 "fresh" claim4Table).2 "0" = some 0 := by
  refine ⟨by decide, by decide, by decide, by decide⟩

/-! ## Claim C5: a duplicate check leaves the table untouched -/

/-- Claim C5: when the duplicate check reports a fingerprint as duplicate
(present and seen less than 10000 ms ago), the stored last-seen timestamp is
not updated and no other entry is modified: the whole table is returned
unchanged and the original arrival time still anchors the window. -/
theorem claim5_duplicate_frame (now : Int) (k : String) (m : DedupTable) (t : Int)
    (h : mapGet m k = some t) (hw : now - t < 10000) :
    (isRecentlyProcessed now k m).1 = true ∧
    (isRecentlyProcessed now k m).2 = m ∧
    mapGet (isRecentlyProcessed now k m).2 k = some t := by
  rw [irp_dup h hw]
  exact ⟨rfl, rfl, h⟩

/-- Witness for claim C5 at a concrete one-entry table and a check 5000 ms
after the recorded arrival. -/
theorem claim5_witness :
    mapGet [("k1", (0 : Int))] "k1" = some 0 ∧
    (isRecentlyProcessed 5000 "k1" [("k1", (0 : Int))]).1 = true ∧
    (isRecentlyProcessed 5000 "k1" [("k1", (0 : Int))]).2 = [("k1", (0 : Int))] ∧
    mapGet (isRecentlyProcessed 5000 "k1" [("k1", (0 : Int))]).2 "k1" = some 0 :=
  ⟨by decide, claim5_duplicate_frame 5000 "k1" [("k1", 0)] 0 (by decide) (by decide)⟩

/-! ## Claim C1: the GPS coordinate extraction and the zero coordinate -/

/-- Claim C1, amended: in the GPS-bearing handlers the extraction
parseFloat(x) || null maps every unparseable or absent value to an explicit
null, but it also maps the number 0 to null (0 is falsy in JS), and the skip
guard then drops the request: a payload whose gps_latitude parses to 0 is
stored as null and IS skipped, contrary to the claim's zero-preservation. -/
theorem claim1_amended (g : String → Option Int) (now : Int) :
    (∀ v : JVal, jsParseFloat v = none → gpsCoordOrNull v = none) ∧
    gpsCoordOrNull JVal.undef = none ∧
    gpsCoordOrNull JVal.null = none ∧
    (∀ v : JVal, jsParseFloat v = some (JsFloat.fin 0) → gpsCoordOrNull v = none) ∧
    (∀ (b : TrackingBody) (m : DedupTable),
      jsParseFloat b.gps_latitude = some (JsFloat.fin 0) →
      trackingHandler g now b m = ⟨TrackingResp.gpsSkipped, m, none⟩) ∧
    (∀ (db : List BusImageRecord) (b : BusImageBody) (m : DedupTable),
      jsParseFloat b.gps_latitude = some (JsFloat.fin 0) →
      busImageHandler g now db b m = ⟨BusImageResp.gpsSkipped, m, none, none⟩) := by
  have hzero : ∀ v : JVal, jsParseFloat v = some (JsFloat.fin 0) →
      gpsCoordOrNull v = none := by
    intro v hv
    simp [gpsCoordOrNull, hv, jsfTruthy]
  refine ⟨?_, by decide, by decide, hzero, ?_, ?_⟩
  · intro v hv
    simp [gpsCoordOrNull, hv]
  · intro b m hv
    have hguard : trackingGuard b = true := by
      unfold trackingGuard gpsGuardSkips
      rw [hzero _ hv]
      simp
    simp [trackingHandler, hguard]
  · intro db b m hv
    have hguard : busImageGuard b = true := by
      unfold busImageGuard gpsGuardSkips
      rw [hzero _ hv]
      simp
    simp [busImageHandler, hguard]

/-- Witness for claim C1's amended theorem at /tracking and /bus-image bodies
whose latitude is the string 0. -/
theorem claim1_witness :
    jsParseFloat claim1Body.gps_latitude = some (JsFloat.fin 0) ∧
    trackingHandler (fun _ => none) 1000 claim1Body [] =
      ⟨TrackingResp.gpsSkipped, [], none⟩ ∧
    busImageHandler (fun _ => none) 1000 [] claim1ImageBody [] =
      ⟨BusImageResp.gpsSkipped, [], none, none⟩ :=
  ⟨by with_unfolding_all rfl,
   (claim1_amended (fun _ => none) 1000).2.2.2.2.1 claim1Body []
     (by with_unfolding_all rfl),
   (claim1_amended (fun _ => none) 1000).2.2.2.2.2 [] claim1ImageBody []
     (by with_unfolding_all rfl)⟩

/-- Counterexample to claim C1 as stated: the latitude string 0 parses to the
number 0, yet the extracted latitude is null (not 0) and the otherwise valid
/tracking request is skipped with nothing persisted. -/
theorem claim1_counterexample :
    jsParseFloat (JVal.str "0") = some (JsFloat.fin 0) ∧
    gpsCoordOrNull (JVal.str "0") = none ∧
    (trackingHandler (fun _ => none) 1000 claim1Body []).resp = TrackingResp.gpsSkipped ∧
    (trackingHandler (fun _ => none) 1000 claim1Body []).saved = none := by
  refine ⟨by with_unfolding_all rfl, by with_unfolding_all rfl,
    by with_unfolding_all rfl, by with_unfolding_all rfl⟩

/-! ## Claim C2: the 10 second duplicate suppression window -/

/-- Claim C2: two /logs requests with identical extracted sessionId,
objectType and deviceId, whose normalized timestamps share the same truncated
fingerprint bucket, collide on the fingerprint: when the first records its
fingerprint (not itself a duplicate and not a bus log), a second arriving
strictly within 10000 ms is answered as a duplicate skip, nothing is
persisted for it and the table is untouched; and whenever the fingerprint is
found again 10000 ms or more after it was last recorded, the request is
treated as non-duplicate and persisted. -/
theorem claim2_dedup_window (g : String → Option Int) (t1 t2 : Int)
    (b1 b2 : LogsBody) (m : DedupTable)
    (hses : logsSessionId b1 = logsSessionId b2)
    (hobj : logsObjectType b1 = logsObjectType b2)
    (hdev : logsDeviceId b1 = logsDeviceId b2)
    (hbucket : strTake (logsTimestamp g t1 b1) 13 = strTake (logsTimestamp g t2 b2) 13)
    (hnotbus : ¬ strToLower (logsObjectType b1) = "bus")
    (hfresh : mapGet m (logsKey g t1 b1) = none)
    (hwin : t2 - t1 < 10000) :
    (logsHandler g t1 b1 m).saved ≠ none ∧
    (logsHandler g t2 b2 (logsHandler g t1 b1 m).table).resp = LogsResp.dupSkipped ∧
    (logsHandler g t2 b2 (logsHandler g t1 b1 m).table).saved = none ∧
    (logsHandler g t2 b2 (logsHandler g t1 b1 m).table).table =
      (logsHandler g t1 b1 m).table ∧
    (∀ (m2 : DedupTable) (t3 tl : Int), mapGet m2 (logsKey g t3 b2) = some tl →
      10000 ≤ t3 - tl →
      (logsHandler g t3 b2 m2).resp = LogsResp.stored (classify (logsObjectType b2)) ∧
      (logsHandler g t3 b2 m2).saved ≠ none) := by
  have hnotbus2 : ¬ strToLower (logsObjectType b2) = "bus" := hobj ▸ hnotbus
  have hkey : logsKey g t2 b2 = logsKey g t1 b1 := by
    unfold logsKey
    rw [hses, hobj, hdev, hbucket]
  have hr1 : logsHandler g t1 b1 m =
      ⟨LogsResp.stored (classify (logsObjectType b1)),
        recordAndClean t1 (logsKey g t1 b1) m,
        some ⟨logsSessionId b1, logsTimestamp g t1 b1, logsLocation b1,
          logsObjectType b1, strOrD b1.direction "unknown"⟩⟩ := by
    unfold logsHandler
    rw [if_neg hnotbus, irp_fresh t1 hfresh]
    rfl
  have hget : mapGet (recordAndClean t1 (logsKey g t1 b1) m) (logsKey g t2 b2) =
      some t1 := by
    rw [hkey]
    exact mapGet_recordAndClean_self t1 (logsKey g t1 b1) m
  have hr2 : logsHandler g t2 b2 (recordAndClean t1 (logsKey g t1 b1) m) =
      ⟨LogsResp.dupSkipped, recordAndClean t1 (logsKey g t1 b1) m, none⟩ := by
    unfold logsHandler
    rw [if_neg hnotbus2, irp_dup hget (by omega)]
    rfl
  refine ⟨?_, ?_, ?_, ?_, ?_⟩
  · rw [hr1]
    simp
  · rw [hr1, hr2]
  · rw [hr1, hr2]
  · rw [hr1, hr2]
  · intro m2 t3 tl hg2 hww
    have hr3 : logsHandler g t3 b2 m2 =
        ⟨LogsResp.stored (classify (logsObjectType b2)),
          recordAndClean t3 (logsKey g t3 b2) m2,
          some ⟨logsSessionId b2, logsTimestamp g t3 b2, logsLocation b2,
            logsObjectType b2, strOrD b2.direction "unknown"⟩⟩ := by
      unfold logsHandler
      rw [if_neg hnotbus2, irp_stale hg2 hww]
      rfl
    rw [hr3]
    simp

/-- Witness for claim C2 at two identical /logs car payloads submitted at
clocks 0 and 5000, starting from an empty table. -/
theorem claim2_witness :
    mapGet ([] : DedupTable) (logsKey (fun _ => none) 0 claim2Body) = none ∧
    (logsHandler (fun _ => none) 0 claim2Body []).saved ≠ none ∧
    (logsHandler (fun _ => none) 5000 claim2Body
      (logsHandler (fun _ => none) 0 claim2Body []).table).resp = LogsResp.dupSkipped := by
  have h := claim2_dedup_window (fun _ => none) 0 5000 claim2Body claim2Body []
    rfl rfl rfl rfl (by decide) (by decide) (by decide)
  exact ⟨by decide, h.1, h.2.1⟩

/-! ## Claim C6: how bus images are actually deduplicated -/

/-- Claim C6, amended: the /bus-image handler computes the busimg fingerprint
but never stores it in, nor checks it against, the in-memory table: the key
never enters the table (provided it is not accidentally equal to the
synthesized tracking fingerprint, the only key the handler records), and
duplicate bus images are instead detected by an exact-match storage lookup on
(sessionId, deviceId, timestamp), which answers the already-exists skip
without touching the table. -/
theorem claim6_amended (g : String → Option Int) (now : Int) (db : List BusImageRecord)
    (b : BusImageBody) (m : DedupTable)
    (hkey : mapGet m (busImageKey g now b) = none)
    (hne : busImageKey g now b ≠ busTrackingKey g now b) :
    mapGet (busImageHandler g now db b m).table (busImageKey g now b) = none ∧
    (busImageGuard b = false → strTruthy b.image_data = true →
      busImageExists db (busImageSessionId b) (busImageDeviceId b)
        (busImageTimestamp g now b) = true →
      busImageHandler g now db b m = ⟨BusImageResp.alreadyExists, m, none, none⟩) := by
  constructor
  · unfold busImageHandler
    by_cases hg : busImageGuard b
    · rw [if_pos hg]
      exact hkey
    · rw [if_neg hg]
      by_cases himg : strTruthy b.image_data
      · rw [if_neg (by simp [himg])]
        by_cases hex : busImageExists db (busImageSessionId b) (busImageDeviceId b)
            (busImageTimestamp g now b)
        · rw [if_pos hex]
          exact hkey
        · rw [if_neg hex]
          by_cases hdup : (isRecentlyProcessed now (busTrackingKey g now b) m).1
          · rw [if_pos hdup]
            show mapGet (isRecentlyProcessed now (busTrackingKey g now b) m).2
              (busImageKey g now b) = none
            rw [irp_true_frame hdup]
            exact hkey
          · rw [if_neg hdup]
            show mapGet (mapSet (isRecentlyProcessed now (busTrackingKey g now b) m).2
              (busTrackingKey g now b) now) (busImageKey g now b) = none
            rw [mapGet_mapSet_ne _ now hne]
            have hsnd : (isRecentlyProcessed now (busTrackingKey g now b) m).2 =
                recordAndClean now (busTrackingKey g now b) m := by
              cases hg2 : mapGet m (busTrackingKey g now b) with
              | none => rw [irp_fresh now hg2]
              | some t =>
                by_cases hw : now - t < 10000
                · rw [irp_dup hg2 hw] at hdup
                  exact absurd rfl hdup
                · rw [irp_stale hg2 (by omega)]
            rw [hsnd]
            exact mapGet_recordAndClean_ne_none now m hne hkey
      · rw [if_pos (by simp [himg])]
        exact hkey
  · intro hg himg hex
    unfold busImageHandler
    rw [if_neg (by simp [hg]), if_neg (by simp [himg]), if_pos hex]

/-- Witness for claim C6's amended theorem at a concrete valid upload whose
exact (sessionId, deviceId, timestamp) is already stored. -/
theorem claim6_witness :
    busImageHandler (fun _ => none) 6000 claim6Db claim6Body1 claim6Run1.table =
      ⟨BusImageResp.alreadyExists, claim6Run1.table, none, none⟩ ∧
    mapGet (busImageHandler (fun _ => none) 6000 claim6Db claim6Body1
      claim6Run1.table).table (busImageKey (fun _ => none) 6000 claim6Body1) = none := by
  have h := claim6_amended (fun _ => none) 6000 claim6Db claim6Body1 claim6Run1.table
    (by with_unfolding_all rfl) (by decide)
  exact ⟨h.2 (by with_unfolding_all rfl) (by decide) (by with_unfolding_all rfl), h.1⟩

/-- Counterexample to claim C6 as stated: a second bus-image upload with the
same busimg fingerprint (same bucket, seconds differ) arriving 4000 ms after
the first is NOT reported as a skip — it is stored again, because the storage
lookup matches only the exact timestamp — and the busimg fingerprint was
never recorded in the in-memory table by the first request. -/
theorem claim6_counterexample :
    claim6Run1.resp = BusImageResp.storedImage ∧
    (claim6Run1.savedImage).isSome = true ∧
    busImageKey (fun _ => none) 5000 claim6Body2 =
      busImageKey (fun _ => none) 1000 claim6Body1 ∧
    claim6Run2.resp = BusImageResp.storedImage ∧
    (claim6Run2.savedImage).isSome = true ∧
    mapGet claim6Run2.table (busImageKey (fun _ => none) 5000 claim6Body2) = none := by
  refine ⟨by with_unfolding_all rfl, by with_unfolding_all rfl, by decide,
    by with_unfolding_all rfl, by with_unfolding_all rfl, by with_unfolding_all rfl⟩

end TrafficBackend
